import Mathlib

/-!
# heat_control: the configuration header and the control core it parameterises

`src/config.hpp` is a header of preprocessor definitions.  Every definition of
the header that a property below talks about is embedded here under its own
name.  Definitions that depend on the build switch `DEMO_MODE` are functions of
that switch, so both branches of the `#ifndef DEMO_MODE ... #else ... #endif`
block are kept.

The control core (pump controller, burner inhibit policy, tick) is not part of
the header; it is modelled from the specification and marked as such.
-/

namespace HeatControl

/-! ## Build switch -/

/-- The build switch `#define DEMO_MODE` of `config.hpp` line 7: it is defined. -/
def DEMO_MODE : Bool := true

/-! ## Pins -/

/-- The board labels of the Controllino library that the header refers to
(`CONTROLLINO_IN0`, `CONTROLLINO_D0`, ...), together with the labels the
IO-mapping comment uses for the rows that carry a signal. -/
inductive Label where
  | IN0 | IN1
  | D0 | D1 | D2 | D3 | D4 | D5
  | A0 | A1 | A2 | A3
  deriving DecidableEq, Repr

/-- A pin as the header writes it: a plain Arduino pin number (`13`, `5`), an
Arduino analog pin name (`A0`), or a Controllino board constant
(`CONTROLLINO_D1`). -/
inductive Pin where
  | num (n : Nat)
  | analog (n : Nat)
  | controllino (l : Label)
  deriving DecidableEq, Repr

/-- The signals the header defines a pin for. -/
inductive Signal where
  | OneWire
  | MvBuffer
  | PumpBuffer
  | InhibitBurner
  | PumpWarmWaterActive
  | PumpHeatingActive
  | BurnerRequest
  deriving DecidableEq, Repr

/-- `IO_OneWire`: `CONTROLLINO_IN0` without `DEMO_MODE`, `13` with it. -/
def IO_OneWire (demo : Bool) : Pin :=
  if demo then Pin.num 13 else Pin.controllino Label.IN0

/-- `O_MVBUFFER`: `CONTROLLINO_D1` without `DEMO_MODE`, `5` with it. -/
def O_MVBUFFER (demo : Bool) : Pin :=
  if demo then Pin.num 5 else Pin.controllino Label.D1

/-- `O_PUMPBUFFER`: `CONTROLLINO_D0` without `DEMO_MODE`, `4` with it. -/
def O_PUMPBUFFER (demo : Bool) : Pin :=
  if demo then Pin.num 4 else Pin.controllino Label.D0

/-- `O_INHIBITBURNER`: `CONTROLLINO_D2` without `DEMO_MODE`, `6` with it. -/
def O_INHIBITBURNER (demo : Bool) : Pin :=
  if demo then Pin.num 6 else Pin.controllino Label.D2

/-- `I_PUMPWARMWATERACTIVE`: `CONTROLLINO_A0` without `DEMO_MODE`, `A0` with it. -/
def I_PUMPWARMWATERACTIVE (demo : Bool) : Pin :=
  if demo then Pin.analog 0 else Pin.controllino Label.A0

/-- `I_PUMPHEATINGACTIVE`: `CONTROLLINO_A1` without `DEMO_MODE`, `A1` with it. -/
def I_PUMPHEATINGACTIVE (demo : Bool) : Pin :=
  if demo then Pin.analog 1 else Pin.controllino Label.A1

/-- `I_BURNERREQUEST`: `CONTROLLINO_A2` without `DEMO_MODE`, `A2` with it. -/
def I_BURNERREQUEST (demo : Bool) : Pin :=
  if demo then Pin.analog 2 else Pin.controllino Label.A2

/-- The pin the header defines for a signal, for a given build. -/
def definedPin (demo : Bool) : Signal → Pin
  | Signal.OneWire => IO_OneWire demo
  | Signal.MvBuffer => O_MVBUFFER demo
  | Signal.PumpBuffer => O_PUMPBUFFER demo
  | Signal.InhibitBurner => O_INHIBITBURNER demo
  | Signal.PumpWarmWaterActive => I_PUMPWARMWATERACTIVE demo
  | Signal.PumpHeatingActive => I_PUMPHEATINGACTIVE demo
  | Signal.BurnerRequest => I_BURNERREQUEST demo

/-- One row of the IO-mapping comment (`config.hpp` lines 17 to 43): the
Arduino pin of the first column, the board label of the second column and the
signal of the last column. -/
structure MappingRow where
  pin : Pin
  label : Label
  signal : Signal
  deriving DecidableEq, Repr

/-- The rows of the IO-mapping comment that name one of the signals the header
defines a pin for:

    2  - IN0               - One Wire Bus Data (DS1820)
    4  - D0 - Relais/DO    - Pump Buffer
    5  - D1 - Relais/DO    - Magnetvalve Buffer
    6  - D2 - Relais/DO    - Inhibit Burner
    A0 - A0 - AI/DI        - Pump warm Water
    A1 - A1 - AI/DI        - Pump Heating
    A3 - A3 - AI/DI        - Request Burner
-/
def ioMapping : List MappingRow :=
  [ { pin := Pin.num 2, label := Label.IN0, signal := Signal.OneWire },
    { pin := Pin.num 4, label := Label.D0, signal := Signal.PumpBuffer },
    { pin := Pin.num 5, label := Label.D1, signal := Signal.MvBuffer },
    { pin := Pin.num 6, label := Label.D2, signal := Signal.InhibitBurner },
    { pin := Pin.analog 0, label := Label.A0, signal := Signal.PumpWarmWaterActive },
    { pin := Pin.analog 1, label := Label.A1, signal := Signal.PumpHeatingActive },
    { pin := Pin.analog 3, label := Label.A3, signal := Signal.BurnerRequest } ]

/-- The pin the IO-mapping comment documents for a signal: the Arduino pin of
its row for the demo build, the board label of its row otherwise. -/
def documentedPin (demo : Bool) (sig : Signal) : Option Pin :=
  (ioMapping.find? (fun r => decide (r.signal = sig))).map
    (fun r => if demo then r.pin else Pin.controllino r.label)

/-! ## Global configuration -/

/-- `#define TEMP_MINIMUM 60.0` (degrees Celsius; the literal is exact). -/
def TEMP_MINIMUM : ℚ := 60

/-- `#define PUMP_DURATION 60000` (milliseconds). -/
def PUMP_DURATION : Nat := 60000

/-- `#define PUMP_PAUSE 60000` (milliseconds). -/
def PUMP_PAUSE : Nat := 60000

/-! ## One-wire definitions -/

/-- `#define TEMPERATURE_PRECISION 12` (bits). -/
def TEMPERATURE_PRECISION : Nat := 12

/-- `#define TEMPERATURE_UPDATE 10000` (milliseconds). -/
def TEMPERATURE_UPDATE : Nat := 10000

/-- `#define TEMPCONVERSION_TIME 1000` (milliseconds). -/
def TEMPCONVERSION_TIME : Nat := 1000

/-- `#define ADD_WARMWATER {0x28, 0xff, 0x4b, 0x96, 0x74, 0x16, 0x04, 0x6f}`. -/
def ADD_WARMWATER : List Nat := [0x28, 0xff, 0x4b, 0x96, 0x74, 0x16, 0x04, 0x6f]

/-- `#define ADD_BUFFERTOP {0x28, 0xff, 0x4b, 0x96, 0x74, 0x16, 0x04, 0x6f}`. -/
def ADD_BUFFERTOP : List Nat := [0x28, 0xff, 0x4b, 0x96, 0x74, 0x16, 0x04, 0x6f]

/-- `#define ADD_BUFFERBOTTOM {0x28, 0xff, 0x2f, 0x96, 0x74, 0x16, 0x04, 0x61}`. -/
def ADD_BUFFERBOTTOM : List Nat := [0x28, 0xff, 0x2f, 0x96, 0x74, 0x16, 0x04, 0x61]

/-- `#define ADD_HEAT_FLOW {0x28, 0xff, 0x4b, 0x96, 0x74, 0x16, 0x04, 0x6f}`. -/
def ADD_HEAT_FLOW : List Nat := [0x28, 0xff, 0x4b, 0x96, 0x74, 0x16, 0x04, 0x6f]

/-- `#define ADD_HEAT_RETURN {0x28, 0xff, 0x4b, 0x96, 0x74, 0x16, 0x04, 0x6f}`. -/
def ADD_HEAT_RETURN : List Nat := [0x28, 0xff, 0x4b, 0x96, 0x74, 0x16, 0x04, 0x6f]

/-- `#define I2C_ADDRESS 42`. -/
def I2C_ADDRESS : Nat := 42

/-- The logical roles of the probes, one per `ADD_*` definition. -/
inductive Role where
  | WarmWater
  | BufferTop
  | BufferBottom
  | HeatFlow
  | HeatReturn
  deriving DecidableEq, Repr

/-- All roles, in the order of the `ADD_*` definitions. -/
def allRoles : List Role :=
  [Role.WarmWater, Role.BufferTop, Role.BufferBottom, Role.HeatFlow, Role.HeatReturn]

/-- The address the header defines for a role. -/
def probeAddress : Role → List Nat
  | Role.WarmWater => ADD_WARMWATER
  | Role.BufferTop => ADD_BUFFERTOP
  | Role.BufferBottom => ADD_BUFFERBOTTOM
  | Role.HeatFlow => ADD_HEAT_FLOW
  | Role.HeatReturn => ADD_HEAT_RETURN

/-- The probe address table: the five `ADD_*` definitions keyed by role. -/
def probeTable : List (Role × List Nat) :=
  allRoles.map (fun r => (r, probeAddress r))

/-- Modelled from the spec: the startup validation of the probe address table
that the design notes ask for ("treat probe-address uniqueness as a
configuration precondition to validate at startup"); the header has no such
check.  It accepts a table exactly when no address occurs twice. -/
def validateProbeTable (table : List (Role × List Nat)) : Bool :=
  decide (table.map Prod.snd).Nodup

/-- Modelled from the spec: the default number `N = 3` of update intervals
after which a probe without a valid reading is stale; the header defines no
such constant. -/
def STALE_INTERVALS : Nat := 3

/-- Modelled from the spec: the staleness limit `N × update-interval`. -/
def staleLimit : Nat := STALE_INTERVALS * TEMPERATURE_UPDATE

/-! ## The control core

The header holds no control logic.  The definitions of this section are
modelled from the specification (sections 3, 4.2, 4.3, 4.4 and 6); the
constants they are run with are those of the header.  Temperatures are exact
rationals in degrees Celsius, times are milliseconds of the monotonic clock. -/

/-- Modelled from the spec: the configuration record of section 3 and 6
(minimum buffer temperature, pump run and pause durations) with the deadband of
section 4.2, for which the header has no constant. -/
structure Config where
  tempMinimum : ℚ
  pumpDuration : Nat
  pumpPause : Nat
  deadband : ℚ
  deriving DecidableEq, Repr

/-- The configuration the header ships: `TEMP_MINIMUM`, `PUMP_DURATION`,
`PUMP_PAUSE`, and the deadband default of 2 degrees the spec suggests. -/
def shippedConfig : Config :=
  { tempMinimum := TEMP_MINIMUM
    pumpDuration := PUMP_DURATION
    pumpPause := PUMP_PAUSE
    deadband := 2 }

/-- Modelled from the spec: the pump modes of section 4.2. -/
inductive PumpMode where
  | Off
  | Running
  | Pausing
  deriving DecidableEq, Repr

/-- Modelled from the spec: `PumpState` of section 3, the current mode and the
mode-entry timestamp (the two duration constants live in `Config`). -/
structure PumpState where
  mode : PumpMode
  entry : Nat
  deriving DecidableEq, Repr

/-- Modelled from the spec: what one tick samples (sections 4.2, 4.3 and 6):
the clock, the buffer-top and buffer-bottom readings, the staleness flag of
buffer-top, the reference reading of the burner policy with its staleness
flag, and the three external signals. -/
structure TickInput where
  now : Nat
  bufferTop : ℚ
  bufferTopStale : Bool
  bufferBottom : ℚ
  reference : ℚ
  referenceStale : Bool
  warmWaterActive : Bool
  heatingActive : Bool
  burnerRequest : Bool
  deriving DecidableEq, Repr

/-- Modelled from the spec: the triggering condition of `Off → Running`
(section 4.2): buffer-bottom is below buffer-top minus the deadband, and the
warm-water or the heating signal is active, and buffer-top is not stale. -/
def trigger (cfg : Config) (i : TickInput) : Bool :=
  decide (i.bufferBottom < i.bufferTop - cfg.deadband)
    && (i.warmWaterActive || i.heatingActive)
    && !i.bufferTopStale

/-- Modelled from the spec: one tick of the pump controller (section 4.2).
* `Off → Running` when the triggering condition holds;
* `Running → Pausing` when the minimum run duration has elapsed and either the
  triggering condition no longer holds or buffer-top is stale;
* `Pausing → Off` once the minimum pause duration has elapsed;
* no other change.  A change of mode stamps the mode-entry timestamp.

The sentence on `Running → Pausing` ("triggered when minimum-run-duration has
elapsed AND the triggering condition above is no longer true, OR when buffer-top
reading becomes stale") is read with the minimum run duration guarding both
exits.  This is the reading under which the invariant of section 3 and the
first property and scenario 2 of section 8 hold as they are written, without an
exception for a stale reading. -/
def pumpTick (cfg : Config) (s : PumpState) (i : TickInput) : PumpState :=
  match s.mode with
  | PumpMode.Off =>
      if trigger cfg i then { mode := PumpMode.Running, entry := i.now } else s
  | PumpMode.Running =>
      if decide (cfg.pumpDuration ≤ i.now - s.entry) && (!trigger cfg i || i.bufferTopStale)
      then { mode := PumpMode.Pausing, entry := i.now } else s
  | PumpMode.Pausing =>
      if cfg.pumpPause ≤ i.now - s.entry
      then { mode := PumpMode.Off, entry := i.now } else s

/-- Modelled from the spec: a sequence of ticks of the pump controller. -/
def runTicks (cfg : Config) (s : PumpState) (is : List TickInput) : PumpState :=
  is.foldl (pumpTick cfg) s

/-- Modelled from the spec: the burner inhibit decision (section 4.3), a pure
function of the reference temperature, its staleness flag and the
burner-request signal: inhibit when the reading is not stale and the
temperature is at least the minimum threshold. -/
def burnerInhibit (cfg : Config) (temperature : ℚ) (stale : Bool) (_request : Bool) : Bool :=
  !stale && decide (cfg.tempMinimum ≤ temperature)

/-- Modelled from the spec: the relay outputs of section 6. -/
structure Outputs where
  bufferPump : Bool
  magneticValve : Bool
  burnerInhibitRelay : Bool
  deriving DecidableEq, Repr

/-- Modelled from the spec: the relays driven after a tick (sections 4.2, 4.3):
pump and valve are asserted exactly while the mode is `Running`, the inhibit
relay follows the burner policy. -/
def relayOutputs (cfg : Config) (s : PumpState) (i : TickInput) : Outputs :=
  { bufferPump := decide (s.mode = PumpMode.Running)
    magneticValve := decide (s.mode = PumpMode.Running)
    burnerInhibitRelay := burnerInhibit cfg i.reference i.referenceStale i.burnerRequest }

/-- Modelled from the spec: one tick of the control loop on sampled inputs
(section 4.4): the pump controller ticks, then the burner policy, and the
relays are written once from the result. -/
def controlTick (cfg : Config) (s : PumpState) (i : TickInput) : PumpState × Outputs :=
  let s1 := pumpTick cfg s i
  (s1, relayOutputs cfg s1 i)

/-! ### Concrete states and inputs used below -/

/-- A pump that is off, with mode-entry timestamp `t`. -/
def offAt (t : Nat) : PumpState := { mode := PumpMode.Off, entry := t }

/-- A pump that is running, with mode-entry timestamp `t`. -/
def runningAt (t : Nat) : PumpState := { mode := PumpMode.Running, entry := t }

/-- A pump that is pausing, with mode-entry timestamp `t`. -/
def pausingAt (t : Nat) : PumpState := { mode := PumpMode.Pausing, entry := t }

/-- Inputs at time `t` under which the pump should circulate: buffer top 55,
buffer bottom 30, all readings fresh, warm water active, burner requested,
reference temperature 62. -/
def demandAt (t : Nat) : TickInput :=
  { now := t
    bufferTop := 55
    bufferTopStale := false
    bufferBottom := 30
    reference := 62
    referenceStale := false
    warmWaterActive := true
    heatingActive := false
    burnerRequest := true }

/-- Inputs at time `t` with fresh readings and neither external signal active. -/
def idleAt (t : Nat) : TickInput :=
  { demandAt t with warmWaterActive := false }

/-- Inputs at time `t` with a stale buffer-top reading. -/
def staleTopAt (t : Nat) : TickInput :=
  { demandAt t with bufferTopStale := true }

end HeatControl

namespace HeatControl

/-! ## Properties of the configuration header -/

/-- C6 (evaluation of the header): the pins the header defines do not all
follow its IO-mapping comment.  In the active build (`DEMO_MODE` defined) the
one-wire bus is on pin 13 where the comment documents pin 2, and the burner
request is on `A2` where the comment documents `A3`; without `DEMO_MODE` the
burner request is `CONTROLLINO_A2` where the comment documents `A3`.  Every
other signal is on its documented pin in both builds. -/
theorem defined_pins_against_io_mapping :
    definedPin DEMO_MODE Signal.OneWire = Pin.num 13
    ∧ documentedPin DEMO_MODE Signal.OneWire = some (Pin.num 2)
    ∧ definedPin DEMO_MODE Signal.BurnerRequest = Pin.analog 2
    ∧ documentedPin DEMO_MODE Signal.BurnerRequest = some (Pin.analog 3)
    ∧ definedPin false Signal.BurnerRequest = Pin.controllino Label.A2
    ∧ documentedPin false Signal.BurnerRequest = some (Pin.controllino Label.A3)
    ∧ documentedPin false Signal.OneWire = some (definedPin false Signal.OneWire)
    ∧ ∀ (demo : Bool) (sig : Signal), sig ≠ Signal.OneWire → sig ≠ Signal.BurnerRequest →
        documentedPin demo sig = some (definedPin demo sig) := by
  refine ⟨by decide, by decide, by decide, by decide, by decide, by decide, by decide, ?_⟩
  intro demo sig h1 h2
  cases demo <;> cases sig <;> first | decide | exact absurd rfl h1 | exact absurd rfl h2

/-- C7: the probe addresses are not unique: two distinct roles (warm water and
buffer top) have the same 8-byte address, and a validation that requires
pairwise distinct addresses rejects the table of the header. -/
theorem probe_addresses_not_unique :
    (∃ r1 r2 : Role, r1 ≠ r2 ∧ probeAddress r1 = probeAddress r2
        ∧ (probeAddress r1).length = 8)
    ∧ validateProbeTable probeTable = false := by
  refine ⟨⟨Role.WarmWater, Role.BufferTop, by decide, by decide, by decide⟩, by decide⟩

/-- C8: the probe address table has exactly five entries, one for each of the
five roles and none twice, and every address is a list of exactly 8 values,
each of them a byte. -/
theorem probe_table_shape :
    probeTable.length = 5
    ∧ probeTable.map Prod.fst = allRoles
    ∧ allRoles.Nodup
    ∧ (∀ r : Role, r ∈ allRoles)
    ∧ (∀ r : Role, (r, probeAddress r) ∈ probeTable)
    ∧ ∀ r : Role, (probeAddress r).length = 8 ∧ ∀ b ∈ probeAddress r, b < 256 := by
  refine ⟨by decide, by decide, by decide, ?_, ?_, ?_⟩
  · intro r; cases r <;> decide
  · intro r; cases r <;> decide
  · intro r; cases r <;> decide

/-- C9: the conversion latency is strictly below the update interval, so for
every request time the collection deadline lies strictly before the next
request time, and both lie before the default staleness limit of three update
intervals (30000 ms). -/
theorem conversion_window_inside_update_interval :
    TEMPCONVERSION_TIME = 1000 ∧ TEMPERATURE_UPDATE = 10000 ∧ staleLimit = 30000
    ∧ TEMPCONVERSION_TIME < TEMPERATURE_UPDATE
    ∧ ∀ t : Nat, t + TEMPCONVERSION_TIME < t + TEMPERATURE_UPDATE
        ∧ t + TEMPERATURE_UPDATE < t + staleLimit
        ∧ t + TEMPCONVERSION_TIME < t + staleLimit := by
  refine ⟨rfl, rfl, rfl, by decide, ?_⟩
  intro t
  simp only [TEMPCONVERSION_TIME, TEMPERATURE_UPDATE, staleLimit, STALE_INTERVALS]
  omega

/-- C10: buffer top and buffer bottom have different addresses, which differ
exactly at byte 2 and byte 7; warm water, buffer top, heat flow and heat return
all have one address; the table holds exactly two distinct addresses; and
buffer bottom is the only role whose address no other role has. -/
theorem buffer_probes_distinguishable :
    ADD_BUFFERTOP ≠ ADD_BUFFERBOTTOM
    ∧ (List.range 8).filter (fun k => ADD_BUFFERTOP[k]? != ADD_BUFFERBOTTOM[k]?) = [2, 7]
    ∧ ADD_WARMWATER = ADD_BUFFERTOP
    ∧ ADD_HEAT_FLOW = ADD_BUFFERTOP
    ∧ ADD_HEAT_RETURN = ADD_BUFFERTOP
    ∧ ((probeTable.map Prod.snd).dedup).length = 2
    ∧ ∀ r : Role, (∀ q : Role, probeAddress q = probeAddress r → q = r)
        ↔ r = Role.BufferBottom := by
  refine ⟨by decide, by decide, by decide, by decide, by decide, by decide, ?_⟩
  intro r
  constructor
  · intro h
    cases r
    · exact absurd (h Role.BufferTop (by decide)) (by decide)
    · exact absurd (h Role.WarmWater (by decide)) (by decide)
    · rfl
    · exact absurd (h Role.WarmWater (by decide)) (by decide)
    · exact absurd (h Role.WarmWater (by decide)) (by decide)
  · rintro rfl q hq
    cases q <;> first | rfl | exact absurd hq (by decide)

/-! ## Properties of the control core -/

/-- A tick that changes the mode stamps the mode-entry timestamp with its own time. -/
theorem pumpTick_entry_of_mode_change (cfg : Config) (s : PumpState) (i : TickInput)
    (h : (pumpTick cfg s i).mode ≠ s.mode) : (pumpTick cfg s i).entry = i.now := by
  unfold pumpTick at h ⊢
  split <;> split <;> simp_all

/-- A running pump inside the run window is left alone, whatever the inputs. -/
theorem pumpTick_running_keeps (cfg : Config) (s : PumpState) (i : TickInput)
    (hm : s.mode = PumpMode.Running)
    (hw : i.now - s.entry < cfg.pumpDuration) : pumpTick cfg s i = s := by
  unfold pumpTick
  rw [hm]
  have hd : decide (cfg.pumpDuration ≤ i.now - s.entry) = false := by
    simp only [decide_eq_false_iff_not]; omega
  simp [hd]

/-- A running pump whose start condition holds is left alone, whatever the time. -/
theorem pumpTick_running_demand (cfg : Config) (s : PumpState) (i : TickInput)
    (hm : s.mode = PumpMode.Running) (ht : trigger cfg i = true) : pumpTick cfg s i = s := by
  have hfresh : i.bufferTopStale = false := by
    simp only [trigger, Bool.and_eq_true] at ht
    simpa using ht.2
  unfold pumpTick
  rw [hm]
  simp [ht, hfresh]

/-- A running pump past its run window whose start condition is gone goes to `Pausing`. -/
theorem pumpTick_running_leaves (cfg : Config) (s : PumpState) (i : TickInput)
    (hm : s.mode = PumpMode.Running) (ht : trigger cfg i = false)
    (hw : cfg.pumpDuration ≤ i.now - s.entry) :
    pumpTick cfg s i = { mode := PumpMode.Pausing, entry := i.now } := by
  unfold pumpTick
  rw [hm]
  simp [ht, hw]

/-- A pausing pump past its pause window goes to `Off`. -/
theorem pumpTick_pausing_leaves (cfg : Config) (s : PumpState) (i : TickInput)
    (hm : s.mode = PumpMode.Pausing) (hw : cfg.pumpPause ≤ i.now - s.entry) :
    pumpTick cfg s i = { mode := PumpMode.Off, entry := i.now } := by
  unfold pumpTick
  rw [hm]
  simp [hw]

/-- A tick leaves a running pump `Running` or takes it to `Pausing`. -/
theorem pumpTick_running_mode (cfg : Config) (s : PumpState) (i : TickInput)
    (hm : s.mode = PumpMode.Running) :
    (pumpTick cfg s i).mode = PumpMode.Running ∨ (pumpTick cfg s i).mode = PumpMode.Pausing := by
  unfold pumpTick
  rw [hm]
  simp only []
  split
  · exact Or.inr rfl
  · exact Or.inl hm

/-- A pump that is off starts exactly when the start condition holds. -/
theorem pumpTick_off (cfg : Config) (s : PumpState) (i : TickInput)
    (hm : s.mode = PumpMode.Off) :
    pumpTick cfg s i
      = if trigger cfg i then { mode := PumpMode.Running, entry := i.now } else s := by
  unfold pumpTick
  rw [hm]

/-- A pausing pump inside the pause window is left alone. -/
theorem pumpTick_pausing_keeps (cfg : Config) (s : PumpState) (i : TickInput)
    (hm : s.mode = PumpMode.Pausing) (hw : i.now - s.entry < cfg.pumpPause) :
    pumpTick cfg s i = s := by
  unfold pumpTick
  rw [hm]
  have hd : ¬ cfg.pumpPause ≤ i.now - s.entry := by omega
  simp [hd]

/-- Ticks that each leave the state alone leave it alone together. -/
theorem runTicks_keeps (cfg : Config) (s : PumpState) (is : List TickInput)
    (h : ∀ i ∈ is, pumpTick cfg s i = s) : runTicks cfg s is = s := by
  induction is with
  | nil => rfl
  | cons i rest ih =>
      have h1 : pumpTick cfg s i = s := h i (List.mem_cons_self i rest)
      have h2 : ∀ j ∈ rest, pumpTick cfg s j = s :=
        fun j hj => h j (List.mem_cons_of_mem i hj)
      simp only [runTicks, List.foldl_cons, h1]
      exact ih h2

/-- In a time-ordered sequence every tick is no later than the last one. -/
theorem now_le_last (pre : List TickInput) (i : TickInput)
    (hmono : (pre ++ [i]).Pairwise (fun a b => a.now ≤ b.now)) :
    ∀ j ∈ pre ++ [i], j.now ≤ i.now := by
  intro j hj
  rw [List.pairwise_append] at hmono
  rcases List.mem_append.mp hj with hp | hl
  · exact hmono.2.2 j hp i (List.mem_singleton_self i)
  · rw [List.mem_singleton.mp hl]

/-! ### The pump controller -/

/-- C2: a tick of the pump controller, from every state and on every input,
either keeps the mode or takes `Off` to `Running`, `Running` to `Pausing` or
`Pausing` to `Off`.  No tick takes `Pausing` to `Running`: from `Pausing`
neither zero ticks nor one tick reach `Running`, so a restart takes at least
two ticks. -/
theorem pump_transition_order (cfg : Config) (s : PumpState) (i : TickInput) (e : Nat) :
    ((pumpTick cfg s i).mode = s.mode
      ∨ (s.mode = PumpMode.Off ∧ (pumpTick cfg s i).mode = PumpMode.Running)
      ∨ (s.mode = PumpMode.Running ∧ (pumpTick cfg s i).mode = PumpMode.Pausing)
      ∨ (s.mode = PumpMode.Pausing ∧ (pumpTick cfg s i).mode = PumpMode.Off))
    ∧ ¬ (s.mode = PumpMode.Pausing ∧ (pumpTick cfg s i).mode = PumpMode.Running)
    ∧ (runTicks cfg (pausingAt e) []).mode ≠ PumpMode.Running
    ∧ (runTicks cfg (pausingAt e) [i]).mode ≠ PumpMode.Running := by
  refine ⟨?_, ?_, ?_, ?_⟩
  · unfold pumpTick
    split <;> split <;> simp_all
  · unfold pumpTick
    split <;> split <;> simp_all
  · simp [runTicks, pausingAt]
  · simp only [runTicks, List.foldl_cons, List.foldl_nil, pausingAt, pumpTick]
    split <;> simp

/-- C3: for every minimum pause duration and every time-ordered sequence of
ticks with arbitrary inputs, if the pump enters `Pausing` at the tick `i0`,
then at every later tick whose time is less than the minimum pause duration
after `i0` the pump is still `Pausing`, so neither `Running` nor `Off`; and a
tick that leaves `Pausing` goes to `Off` and happens only once the minimum
pause duration has elapsed since the mode was entered. -/
theorem min_pause_respected (cfg : Config) (s0 : PumpState) (i0 : TickInput)
    (pre : List TickInput) (i : TickInput)
    (hother : s0.mode ≠ PumpMode.Pausing)
    (henter : (pumpTick cfg s0 i0).mode = PumpMode.Pausing)
    (hmono : (pre ++ [i]).Pairwise (fun a b => a.now ≤ b.now))
    (hwin : i.now - i0.now < cfg.pumpPause) :
    (runTicks cfg (pumpTick cfg s0 i0) (pre ++ [i])).mode = PumpMode.Pausing
    ∧ (runTicks cfg (pumpTick cfg s0 i0) (pre ++ [i])).mode ≠ PumpMode.Running
    ∧ (runTicks cfg (pumpTick cfg s0 i0) (pre ++ [i])).mode ≠ PumpMode.Off
    ∧ ∀ (s : PumpState) (j : TickInput), s.mode = PumpMode.Pausing →
        (pumpTick cfg s j).mode ≠ PumpMode.Pausing →
        (pumpTick cfg s j).mode = PumpMode.Off ∧ cfg.pumpPause ≤ j.now - s.entry := by
  have hentry : (pumpTick cfg s0 i0).entry = i0.now :=
    pumpTick_entry_of_mode_change cfg s0 i0 (by rw [henter]; exact fun h => hother h.symm)
  have hle := now_le_last pre i hmono
  have hkeep : runTicks cfg (pumpTick cfg s0 i0) (pre ++ [i]) = pumpTick cfg s0 i0 := by
    apply runTicks_keeps
    intro j hj
    apply pumpTick_pausing_keeps cfg _ j henter
    have := hle j hj
    rw [hentry]
    omega
  rw [hkeep, henter]
  refine ⟨rfl, by decide, by decide, ?_⟩
  intro s j hm hleave
  by_cases hp : cfg.pumpPause ≤ j.now - s.entry
  · refine ⟨?_, hp⟩
    unfold pumpTick
    rw [hm]
    simp [hp]
  · exact absurd (by rw [pumpTick_pausing_keeps cfg s j hm (by omega), hm]) hleave

/-- C3 (witness): a pump running since time 0 has lost its buffer-top reading
at the tick at 60000 ms and enters `Pausing`; under the shipped pause of
60000 ms it is still `Pausing` at the ticks at 61000 ms and at 119999 ms,
although demand is present. -/
theorem min_pause_respected_witness :
    (runningAt 0).mode ≠ PumpMode.Pausing
    ∧ (pumpTick shippedConfig (runningAt 0) (staleTopAt 60000)).mode = PumpMode.Pausing
    ∧ (demandAt 119999).now - (staleTopAt 60000).now < shippedConfig.pumpPause
    ∧ (runTicks shippedConfig (pumpTick shippedConfig (runningAt 0) (staleTopAt 60000))
        ([demandAt 61000] ++ [demandAt 119999])).mode = PumpMode.Pausing :=
  ⟨by decide,
   by norm_num [pumpTick, trigger, runningAt, demandAt, staleTopAt, shippedConfig,
      PUMP_DURATION],
   by decide,
   (min_pause_respected shippedConfig (runningAt 0) (staleTopAt 60000) [demandAt 61000]
      (demandAt 119999) (by decide)
      (by norm_num [pumpTick, trigger, runningAt, demandAt, staleTopAt, shippedConfig,
        PUMP_DURATION])
      (by simp [demandAt])
      (by decide)).1⟩

/-! ### The burner inhibit policy -/

/-- C4: for every reference temperature, staleness flag and burner-request
value, the inhibit output is true exactly when the reading is not stale and the
temperature is at least the minimum threshold; it is false for every stale
reading, and it does not depend on the burner-request input.  With the shipped
threshold of 60 degrees: 65 degrees stale gives false, 62 degrees valid gives
true, and exactly 60 degrees valid gives true. -/
theorem burner_inhibit_decision (cfg : Config) (temperature : ℚ) (stale request : Bool) :
    (burnerInhibit cfg temperature stale request = true
        ↔ (stale = false ∧ cfg.tempMinimum ≤ temperature))
    ∧ burnerInhibit cfg temperature true request = false
    ∧ burnerInhibit cfg temperature stale request
        = burnerInhibit cfg temperature stale (!request)
    ∧ shippedConfig.tempMinimum = 60
    ∧ burnerInhibit shippedConfig 65 true request = false
    ∧ burnerInhibit shippedConfig 62 false request = true
    ∧ burnerInhibit shippedConfig 60 false request = true
    ∧ burnerInhibit shippedConfig (60 - 1 / 1000) false request = false := by
  refine ⟨?_, ?_, ?_, ?_, ?_, ?_, ?_, ?_⟩
  · cases stale <;> simp [burnerInhibit]
  · simp [burnerInhibit]
  · simp [burnerInhibit]
  · simp [shippedConfig, TEMP_MINIMUM]
  · simp [burnerInhibit]
  · norm_num [burnerInhibit, shippedConfig, TEMP_MINIMUM]
  · norm_num [burnerInhibit, shippedConfig, TEMP_MINIMUM]
  · norm_num [burnerInhibit, shippedConfig, TEMP_MINIMUM]

/-! ### The control tick -/

/-- The start condition does not read the clock. -/
theorem trigger_same_inputs (cfg : Config) (i1 i2 : TickInput)
    (hsame : i2 = { i1 with now := i2.now }) : trigger cfg i2 = trigger cfg i1 := by
  rw [hsame]
  rfl

/-- C5 (as stated, refuted): under the shipped configuration a pump pausing
since time 0 is ticked at 60000 ms with demand present and goes to `Off`, both
relays open; the second tick, 1 ms later with the same inputs, starts the pump
and closes both relays.  At the second tick the time since the first tick and
the time since the mode was entered are both 1 ms, below the minimum run
duration, the minimum pause duration, the update interval and the staleness
limit.  Measured between the two ticks only, the elapsed time also lets a
running pump pass the end of its run window between two ticks 1 ms apart. -/
theorem tick_not_idempotent_on_restart :
    demandAt 60001 = { demandAt 60000 with now := 60001 }
    ∧ (demandAt 60001).now - (demandAt 60000).now = 1
    ∧ (demandAt 60001).now
        - (controlTick shippedConfig (pausingAt 0) (demandAt 60000)).1.entry = 1
    ∧ 1 < shippedConfig.pumpDuration ∧ 1 < shippedConfig.pumpPause
    ∧ 1 < TEMPERATURE_UPDATE ∧ 1 < staleLimit
    ∧ controlTick shippedConfig (pausingAt 0) (demandAt 60000)
        = (offAt 60000,
            { bufferPump := false, magneticValve := false, burnerInhibitRelay := true })
    ∧ controlTick shippedConfig
          (controlTick shippedConfig (pausingAt 0) (demandAt 60000)).1 (demandAt 60001)
        = (runningAt 60001,
            { bufferPump := true, magneticValve := true, burnerInhibitRelay := true })
    ∧ idleAt 60000 = { idleAt 59999 with now := 60000 }
    ∧ (controlTick shippedConfig (runningAt 0) (idleAt 59999)).1.mode = PumpMode.Running
    ∧ (controlTick shippedConfig
          (controlTick shippedConfig (runningAt 0) (idleAt 59999)).1 (idleAt 60000)).1.mode
        = PumpMode.Pausing := by
  refine ⟨rfl, by decide, ?_, by decide, by decide, by decide, by decide, ?_, ?_, rfl, ?_, ?_⟩
  · norm_num [controlTick, pumpTick, pausingAt, demandAt, shippedConfig, PUMP_PAUSE]
  · norm_num [controlTick, relayOutputs, burnerInhibit, pumpTick, trigger, pausingAt, offAt,
      demandAt, shippedConfig, PUMP_PAUSE, TEMP_MINIMUM]
    decide
  · norm_num [controlTick, relayOutputs, burnerInhibit, pumpTick, trigger, pausingAt, offAt,
      runningAt, demandAt, shippedConfig, PUMP_PAUSE, TEMP_MINIMUM]
  · norm_num [controlTick, pumpTick, trigger, runningAt, idleAt, demandAt, shippedConfig,
      PUMP_DURATION]
  · norm_num [controlTick, pumpTick, trigger, runningAt, idleAt, demandAt, shippedConfig,
      PUMP_DURATION]

/-- The three conditions of the idempotence property below are all needed: a
second tick with the same inputs that keeps the pump mode of the first meets
each of them. -/
theorem same_mode_needs_conditions (cfg : Config) (s : PumpState) (i1 i2 : TickInput)
    (hsame : i2 = { i1 with now := i2.now })
    (hkeep : (pumpTick cfg (pumpTick cfg s i1) i2).mode = (pumpTick cfg s i1).mode) :
    ¬ (s.mode = PumpMode.Pausing ∧ (pumpTick cfg s i1).mode = PumpMode.Off
        ∧ trigger cfg i1 = true)
    ∧ ((pumpTick cfg s i1).mode = PumpMode.Running → trigger cfg i1 = false →
        i2.now - (pumpTick cfg s i1).entry < cfg.pumpDuration)
    ∧ ((pumpTick cfg s i1).mode = PumpMode.Pausing →
        i2.now - (pumpTick cfg s i1).entry < cfg.pumpPause) := by
  have htrig := trigger_same_inputs cfg i1 i2 hsame
  refine ⟨?_, ?_, ?_⟩
  · rintro ⟨_, h1, ht⟩
    rw [pumpTick_off cfg _ i2 h1, htrig, ht, h1] at hkeep
    simp at hkeep
  · intro h1 ht
    by_contra hge
    rw [pumpTick_running_leaves cfg _ i2 h1 (by rw [htrig, ht]) (by omega), h1] at hkeep
    simp at hkeep
  · intro h1
    by_contra hge
    rw [pumpTick_pausing_leaves cfg _ i2 h1 (by omega), h1] at hkeep
    simp at hkeep

/-- C5 (amended): for every controller state and every input, if a tick is
followed by a second tick with the same inputs, and
* the first tick did not take the pump from `Pausing` to `Off` while the start
  condition holds,
* when the first tick leaves the pump `Running` with the start condition false,
  the time since the mode was entered is below the minimum run duration at the
  second tick,
* when the first tick leaves the pump `Pausing`, the time since the mode was
  entered is below the minimum pause duration at the second tick,
then the second tick leaves the controller state as the first left it and
produces the same relay outputs (buffer pump, magnetic valve, burner inhibit)
and the same pump mode.  No bound on the elapsed time is needed in any other
state. -/
theorem tick_idempotent_unless_restart (cfg : Config) (s : PumpState) (i1 i2 : TickInput)
    (hsame : i2 = { i1 with now := i2.now })
    (hrestart : ¬ (s.mode = PumpMode.Pausing ∧ (pumpTick cfg s i1).mode = PumpMode.Off
        ∧ trigger cfg i1 = true))
    (hrun : (pumpTick cfg s i1).mode = PumpMode.Running → trigger cfg i1 = false →
        i2.now - (pumpTick cfg s i1).entry < cfg.pumpDuration)
    (hpause : (pumpTick cfg s i1).mode = PumpMode.Pausing →
        i2.now - (pumpTick cfg s i1).entry < cfg.pumpPause) :
    (controlTick cfg (controlTick cfg s i1).1 i2).1 = (controlTick cfg s i1).1
    ∧ (controlTick cfg (controlTick cfg s i1).1 i2).2 = (controlTick cfg s i1).2
    ∧ (controlTick cfg (controlTick cfg s i1).1 i2).1.mode = (controlTick cfg s i1).1.mode := by
  have htrig := trigger_same_inputs cfg i1 i2 hsame
  have hstate : pumpTick cfg (pumpTick cfg s i1) i2 = pumpTick cfg s i1 := by
    rcases hm1 : (pumpTick cfg s i1).mode with _ | _ | _
    · -- the first tick leaves the pump off
      have ht : trigger cfg i1 = false := by
        rcases hmode : s.mode with _ | _ | _
        · -- it was off and did not start
          cases hb : trigger cfg i1
          · rfl
          · rw [pumpTick_off cfg s i1 hmode, hb] at hm1
            simp at hm1
        · -- it was running: a tick from `Running` never reaches `Off`
          rcases pumpTick_running_mode cfg s i1 hmode with h | h
          · rw [h] at hm1; exact absurd hm1 (by decide)
          · rw [h] at hm1; exact absurd hm1 (by decide)
        · -- it was pausing: the restart case is excluded
          cases hb : trigger cfg i1
          · rfl
          · exact absurd ⟨hmode, hm1, hb⟩ hrestart
      rw [pumpTick_off cfg _ i2 hm1, htrig, ht]
      rfl
    · -- the first tick leaves the pump running
      cases hb : trigger cfg i1
      · exact pumpTick_running_keeps cfg _ i2 hm1 (hrun hm1 hb)
      · exact pumpTick_running_demand cfg _ i2 hm1 (by rw [htrig, hb])
    · -- the first tick leaves the pump pausing
      exact pumpTick_pausing_keeps cfg _ i2 hm1 (hpause hm1)
  have hout : relayOutputs cfg (pumpTick cfg s i1) i2 = relayOutputs cfg (pumpTick cfg s i1) i1 := by
    unfold relayOutputs
    rw [hsame]
  refine ⟨?_, ?_, ?_⟩
  · simpa [controlTick] using hstate
  · simp only [controlTick, hstate]
    exact hout
  · simp only [controlTick, hstate]

/-- C5 (witness): under the shipped configuration a pump that has been running
since time 0 is ticked at 3600000 ms with demand present and keeps running; the
second tick, 1 ms later with the same inputs, leaves it running with the same
relay outputs, an hour after the mode was entered. -/
theorem tick_idempotent_unless_restart_witness :
    demandAt 3600001 = { demandAt 3600000 with now := (demandAt 3600001).now }
    ∧ shippedConfig.pumpDuration ≤
        (demandAt 3600001).now - (pumpTick shippedConfig (runningAt 0) (demandAt 3600000)).entry
    ∧ (controlTick shippedConfig
          (controlTick shippedConfig (runningAt 0) (demandAt 3600000)).1 (demandAt 3600001)).2
        = (controlTick shippedConfig (runningAt 0) (demandAt 3600000)).2
    ∧ (controlTick shippedConfig (runningAt 0) (demandAt 3600000)).2
        = { bufferPump := true, magneticValve := true, burnerInhibitRelay := true } :=
  ⟨rfl,
   by norm_num [pumpTick, trigger, runningAt, demandAt, shippedConfig, PUMP_DURATION],
   (tick_idempotent_unless_restart shippedConfig (runningAt 0) (demandAt 3600000)
      (demandAt 3600001) rfl
      (by simp [runningAt])
      (by norm_num [trigger, demandAt, shippedConfig])
      (by
        intro h
        norm_num [pumpTick, trigger, runningAt, demandAt, shippedConfig] at h
        exact absurd h (by decide))).2.1,
   by norm_num [controlTick, relayOutputs, burnerInhibit, pumpTick, trigger, runningAt,
      demandAt, shippedConfig, TEMP_MINIMUM]⟩

end HeatControl
